import Mathlib

/-!
Verification of the UBO ray-tracer capture program (src/RayTracingUBO/main.cpp).

The program's float arithmetic (glm vectors/matrices, sin/cos) is modeled over
the reals.  glm conventions are embedded faithfully:
  * matrices are column-major (a Mat4 is four Vec4 columns, m[i] is column i);
  * glm::translate / glm::rotate / glm::scale post-multiply the given matrix by
    the elementary transform, operating column-wise exactly as in
    glm/gtc/matrix_transform.inl, with glm::rotate normalizing its axis;
  * the expression vec4 * mat4 is glm's row-vector product: component i of the
    result is the dot product of column i with the vector.
The frame-capture loop, buffer uploads and shader setup are modeled as a
state machine over Nat with an explicit fuel argument for the while loop.
-/

noncomputable section

/-- glm::vec3 over the reals. -/
@[ext] structure Vec3 where
  x : ℝ
  y : ℝ
  z : ℝ

/-- glm::vec4 over the reals. -/
@[ext] structure Vec4 where
  x : ℝ
  y : ℝ
  z : ℝ
  w : ℝ

/-- glm::mat4 over the reals, column-major: ci is column i as in glm m[i]. -/
@[ext] structure Mat4 where
  c0 : Vec4
  c1 : Vec4
  c2 : Vec4
  c3 : Vec4

def Vec3.sub (a b : Vec3) : Vec3 := ⟨a.x - b.x, a.y - b.y, a.z - b.z⟩

def Vec3.neg (a : Vec3) : Vec3 := ⟨-a.x, -a.y, -a.z⟩

/-- glm::cross. -/
def Vec3.cross (a b : Vec3) : Vec3 :=
  ⟨a.y * b.z - a.z * b.y, a.z * b.x - a.x * b.z, a.x * b.y - a.y * b.x⟩

/-- glm::vec3(s): all three components set to the scalar. -/
def Vec3.ofScalar (s : ℝ) : Vec3 := ⟨s, s, s⟩

/-- Componentwise division of a vec3 by a scalar. -/
def Vec3.divScalar (a : Vec3) (s : ℝ) : Vec3 := ⟨a.x / s, a.y / s, a.z / s⟩

/-- glm::vec4(v, w). -/
def Vec3.toVec4 (a : Vec3) (w : ℝ) : Vec4 := ⟨a.x, a.y, a.z, w⟩

/-- glm::vec3(v) applied to a vec4: drop the w component. -/
def Vec4.xyz (a : Vec4) : Vec3 := ⟨a.x, a.y, a.z⟩

def Vec4.add (a b : Vec4) : Vec4 := ⟨a.x + b.x, a.y + b.y, a.z + b.z, a.w + b.w⟩

def Vec4.smul (a : Vec4) (s : ℝ) : Vec4 := ⟨a.x * s, a.y * s, a.z * s, a.w * s⟩

def Vec4.dot (a b : Vec4) : ℝ := a.x * b.x + a.y * b.y + a.z * b.z + a.w * b.w

/-- glm::mat4(): the identity matrix (the default constructor used throughout
the source initializes to identity). -/
def mat4id : Mat4 := ⟨⟨1, 0, 0, 0⟩, ⟨0, 1, 0, 0⟩, ⟨0, 0, 1, 0⟩, ⟨0, 0, 0, 1⟩⟩

/-- glm's row-vector product v * m: component i is dot(m[i], v). -/
def vecMulMat (v : Vec4) (m : Mat4) : Vec4 :=
  ⟨m.c0.dot v, m.c1.dot v, m.c2.dot v, m.c3.dot v⟩

/-- Column-major matrix action on a vec4: the linear combination of columns. -/
def Mat4.mulVec4 (m : Mat4) (v : Vec4) : Vec4 :=
  ((m.c0.smul v.x).add (m.c1.smul v.y)).add ((m.c2.smul v.z).add (m.c3.smul v.w))

/-- glm matrix product m1 * m2: column c of the result is m1 acting on column
c of m2. -/
def Mat4.mul (a b : Mat4) : Mat4 :=
  ⟨a.mulVec4 b.c0, a.mulVec4 b.c1, a.mulVec4 b.c2, a.mulVec4 b.c3⟩

/-- Action of a 4x4 matrix on a 3d point (homogeneous w = 1, dropping w). -/
def Mat4.mulPoint (m : Mat4) (p : Vec3) : Vec3 := (m.mulVec4 (p.toVec4 1)).xyz

/-- glm::translate(m, v): columns 0..2 copied, column 3 is
m[0]*v.x + m[1]*v.y + m[2]*v.z + m[3]. -/
def glmTranslate (m : Mat4) (v : Vec3) : Mat4 :=
  ⟨m.c0, m.c1, m.c2,
   ((m.c0.smul v.x).add (m.c1.smul v.y)).add ((m.c2.smul v.z).add m.c3)⟩

/-- glm::scale(m, v): column i is m[i]*v[i] for i < 3, column 3 copied. -/
def glmScale (m : Mat4) (v : Vec3) : Mat4 :=
  ⟨m.c0.smul v.x, m.c1.smul v.y, m.c2.smul v.z, m.c3⟩

/-- glm::rotate(m, angle, v) from glm/gtc/matrix_transform.inl: the axis is
normalized, the 3x3 rotation block R is built from cos/sin and the normalized
axis, and result column i (i < 3) is m[0]*R[i][0] + m[1]*R[i][1] + m[2]*R[i][2],
column 3 copied. -/
def glmRotate (m : Mat4) (angle : ℝ) (v : Vec3) : Mat4 :=
  let c := Real.cos angle
  let s := Real.sin angle
  let n := Real.sqrt (v.x * v.x + v.y * v.y + v.z * v.z)
  let ax := v.x / n
  let ay := v.y / n
  let az := v.z / n
  let t0 := (1 - c) * ax
  let t1 := (1 - c) * ay
  let t2 := (1 - c) * az
  ⟨((m.c0.smul (c + t0 * ax)).add (m.c1.smul (t0 * ay + s * az))).add
     (m.c2.smul (t0 * az - s * ay)),
   ((m.c0.smul (t1 * ax - s * az)).add (m.c1.smul (c + t1 * ay))).add
     (m.c2.smul (t1 * az + s * ax)),
   ((m.c0.smul (t2 * ax + s * ay)).add (m.c1.smul (t2 * ay - s * ax))).add
     (m.c2.smul (c + t2 * az)),
   m.c3⟩

/-- glm::radians: degrees to radians. -/
def glmRadians (deg : ℝ) : ℝ := deg * (Real.pi / 180)

/-- The five per-frame camera uniforms the draw shader receives
(eye_loc, ray00, ray01, ray10, ray11). -/
@[ext] structure CameraUniforms where
  eye : Vec3
  r00 : Vec3
  r01 : Vec3
  r10 : Vec3
  r11 : Vec3

/-- calcCameraRays (main.cpp lines 124-159), translated statement by
statement.  The glUniform3f calls at the end expose eye and the xyz parts of
the four rotated vectors; they are collected in the returned record. -/
def calcCameraRays (eye center up : Vec3) (fov ratio : ℝ) : CameraUniforms :=
  let centerRay := center.sub eye
  let w := centerRay.neg
  let u := Vec3.cross up w
  let v := Vec3.cross w u
  let uRotateLeft :=
    vecMulMat (u.toVec4 1) (glmRotate mat4id (glmRadians (-fov * ratio / 2)) v)
  let uRotateRight :=
    vecMulMat (u.toVec4 1) (glmRotate mat4id (glmRadians (fov * ratio / 2)) v)
  let r00 :=
    vecMulMat
      (vecMulMat (centerRay.toVec4 1)
        (glmRotate mat4id (glmRadians (-fov * ratio / 2)) v))
      (glmRotate mat4id (glmRadians (fov / 2)) uRotateLeft.xyz)
  let r01 :=
    vecMulMat
      (vecMulMat (centerRay.toVec4 1)
        (glmRotate mat4id (glmRadians (-fov * ratio / 2)) v))
      (glmRotate mat4id (glmRadians (-fov / 2)) uRotateLeft.xyz)
  let r10 :=
    vecMulMat
      (vecMulMat (centerRay.toVec4 1)
        (glmRotate mat4id (glmRadians (fov * ratio / 2)) v))
      (glmRotate mat4id (glmRadians (fov / 2)) uRotateRight.xyz)
  let r11 :=
    vecMulMat
      (vecMulMat (centerRay.toVec4 1)
        (glmRotate mat4id (glmRadians (fov * ratio / 2)) v))
      (glmRotate mat4id (glmRadians (-fov / 2)) uRotateRight.xyz)
  { eye := eye, r00 := r00.xyz, r01 := r01.xyz, r10 := r10.xyz, r11 := r11.xyz }

/-- Rotation of a point about an axis (Rodrigues formula with normalized
axis), written directly as the spec describes camera-ray construction.  The
axis is normalized exactly as glm::rotate normalizes its axis. -/
def axisRotate (angle : ℝ) (axis p : Vec3) : Vec3 :=
  let c := Real.cos angle
  let s := Real.sin angle
  let n := Real.sqrt (axis.x * axis.x + axis.y * axis.y + axis.z * axis.z)
  let ax := axis.x / n
  let ay := axis.y / n
  let az := axis.z / n
  let d := ax * p.x + ay * p.y + az * p.z
  ⟨c * p.x + s * (ay * p.z - az * p.y) + (1 - c) * d * ax,
   c * p.y + s * (az * p.x - ax * p.z) + (1 - c) * d * ay,
   c * p.z + s * (ax * p.y - ay * p.x) + (1 - c) * d * az⟩

/-- Modelled from the spec (section 4.1): the camera-ray construction as the
spec words it — build the basis w, u, v; take the horizontal half-angle
fov*ratio/2 and vertical half-angle fov/2; rotate u about v by the signed
horizontal half-angle to get the rotated right-vector for each screen half;
each corner ray rotates centerRay first about v by that half's horizontal
half-angle and then about the corresponding rotated right-vector by the
vertical half-angle; the eye output is the input eye unchanged. -/
def specCameraRays (eye center up : Vec3) (fov ratio : ℝ) : CameraUniforms :=
  let centerRay := center.sub eye
  let w := centerRay.neg
  let u := Vec3.cross up w
  let v := Vec3.cross w u
  let hHalf := glmRadians (fov * ratio / 2)
  let vHalf := glmRadians (fov / 2)
  let uLeft := axisRotate hHalf v u
  let uRight := axisRotate (-hHalf) v u
  { eye := eye
    r00 := axisRotate (-vHalf) uLeft (axisRotate hHalf v centerRay)
    r01 := axisRotate vHalf uLeft (axisRotate hHalf v centerRay)
    r10 := axisRotate (-vHalf) uRight (axisRotate (-hHalf) v centerRay)
    r11 := axisRotate vHalf uRight (axisRotate (-hHalf) v centerRay) }

/-- The light struct (main.cpp lines 57-64).  The C++ struct also carries two
float padding fields junk1/junk2 that the program never writes (they only pad
the 48-byte stride); they carry no content and are omitted here, while the
stride accounting below (sizeofLight) includes them. -/
structure LightRec where
  pos : Vec4
  color : Vec4
  radius : ℝ
  brightness : ℝ

/-- The two per-frame object transforms computed in renderScene (main.cpp
lines 219-228): test[0] scales the floor, test[1] moves and rotates the
cube. -/
def animateTransforms (time : ℝ) : Mat4 × Mat4 :=
  (glmScale mat4id ((Vec3.ofScalar (Real.sin time + 6)).divScalar 3),
   glmScale
     (glmRotate
       (glmTranslate mat4id ⟨2 * Real.cos time, 1.5, 2 * Real.sin time⟩)
       (-time) ⟨0, 1, 0⟩)
     (Vec3.ofScalar ((1 + Real.sin time) / 2)))

/-- The two per-frame lights computed in renderScene (main.cpp lines
244-268): lights[0] is the white light, lights[1] the red light. -/
def animateLights (time : ℝ) : LightRec × LightRec :=
  ({ color := ⟨1, 1, 1, 0⟩, radius := 7, brightness := 1,
     pos := ⟨2 * Real.sin time, 4, 2 * Real.cos time, 0⟩ },
   { color := ⟨1, 0, 0, 0⟩, radius := 2, brightness := 2,
     pos := ⟨4 * Real.cos time, 1, 4, 0⟩ })

/-- Modelled from the spec (section 4.2): a plain translation matrix. -/
def specTranslation (v : Vec3) : Mat4 :=
  ⟨⟨1, 0, 0, 0⟩, ⟨0, 1, 0, 0⟩, ⟨0, 0, 1, 0⟩, ⟨v.x, v.y, v.z, 1⟩⟩

/-- Modelled from the spec (section 4.2): rotation about the vertical (Y)
axis by the given angle, column-major. -/
def specRotationY (angle : ℝ) : Mat4 :=
  ⟨⟨Real.cos angle, 0, -Real.sin angle, 0⟩, ⟨0, 1, 0, 0⟩,
   ⟨Real.sin angle, 0, Real.cos angle, 0⟩, ⟨0, 0, 0, 1⟩⟩

/-- Modelled from the spec (sections 4.2): a uniform scale matrix. -/
def specUniformScale (k : ℝ) : Mat4 :=
  ⟨⟨k, 0, 0, 0⟩, ⟨0, k, 0, 0⟩, ⟨0, 0, k, 0⟩, ⟨0, 0, 0, 1⟩⟩

/-- The triangle struct (main.cpp lines 40-46). -/
structure Triangle where
  a : Vec4
  b : Vec4
  c : Vec4
  normal : Vec4
  color : Vec4

/-- The Mesh struct (main.cpp lines 48-55): a triangle count and a
fixed-capacity array of 12 triangles.  The list holds the triangles the
program assigns; entries of the C++ array beyond the assigned ones are never
written.  The int padding fields junk1..junk3 carry no content and are
accounted for in sizeofMesh below. -/
structure Mesh where
  numTriangles : ℤ
  triangles : List Triangle

/-- Capacity of the C++ array `triangle triangles[12]` inside Mesh. -/
def meshTriangleCapacity : ℕ := 12

/-- sizeof(glm::vec4): 4 floats. -/
def sizeofVec4 : ℕ := 16

/-- sizeof(triangle): five vec4 fields. -/
def sizeofTriangle : ℕ := 5 * sizeofVec4

/-- sizeof(Mesh): four ints then 12 triangles. -/
def sizeofMesh : ℕ := 4 * 4 + meshTriangleCapacity * sizeofTriangle

/-- sizeof(light): two vec4 fields and four floats (radius, brightness and
two padding floats). -/
def sizeofLight : ℕ := 16 + 16 + 4 * 4

/-- sizeof(glm::mat4x4). -/
def sizeofMat4 : ℕ := 64

/-- compToFragSize = sizeof(triangle) * 14 (main.cpp line 67). -/
def compToFragSize : ℕ := sizeofTriangle * 14

/-- lightToFragSize = sizeof(light) * 2 (main.cpp line 70). -/
def lightToFragSize : ℕ := sizeofLight * 2

/-- matrixBufferSize = sizeof(glm::mat4x4) * 2 (main.cpp line 73). -/
def matrixBufferSize : ℕ := sizeofMat4 * 2

/-- triangleBufferSize = sizeof(Mesh) * 2 (main.cpp line 76). -/
def triangleBufferSize : ℕ := sizeofMesh * 2

/-- Session configuration globals (main.cpp lines 111-115). -/
def videoFPS : ℕ := 60

def videoSeconds : ℕ := 10

def maxFrames : ℕ := videoFPS * videoSeconds

/-- The global frame counter totalFrame starts at 0 (main.cpp line 105). -/
def initialTotalFrame : ℕ := 0

/-- The four GL buffer objects the program creates. -/
inductive GLBuffer where
  | compToFrag
  | matrixBuffer
  | triangleBuffer
  | lightToFrag
deriving DecidableEq, Repr

/-- One glBufferData call: which buffer gets (re)allocated and the byte size
passed. -/
structure BufferUpload where
  buf : GLBuffer
  bytes : ℕ
deriving DecidableEq, Repr

/-- The glBufferData calls renderScene performs each frame, in program
order: the transform upload (line 231, matrixBufferSize) and the light
upload (line 271, lightToFragSize).  The glBindBufferBase calls on
compToFrag/triangleBuffer/lightToFrag only bind, they do not write. -/
def renderSceneUploads : List BufferUpload :=
  [⟨GLBuffer.matrixBuffer, matrixBufferSize⟩,
   ⟨GLBuffer.lightToFrag, lightToFragSize⟩]

/-- The glBufferData calls init performs, in program order (main.cpp lines
406-512).  The last call (line 511) passes the buffer handle lightToFrag as
its size argument instead of lightToFragSize, so the allocated byte count is
whatever value glGenBuffers produced for the handle; the handle is the
parameter. -/
def initUploads (lightToFragHandle : ℕ) : List BufferUpload :=
  [⟨GLBuffer.compToFrag, compToFragSize⟩,
   ⟨GLBuffer.matrixBuffer, matrixBufferSize⟩,
   ⟨GLBuffer.triangleBuffer, triangleBufferSize⟩,
   ⟨GLBuffer.lightToFrag, lightToFragHandle⟩]

/-- C-style truncation of a real to an integer (the (int) cast on a double
rounds toward zero). -/
def truncInt (x : ℝ) : ℤ := if 0 ≤ x then ⌊x⌋ else -⌊-x⌋

/-- The mutable globals renderScene reads and writes (main.cpp lines
104-112).  totalFrame stays in 0..maxFrames during a session, so it is kept
as a natural number; dtime/totalTime are overwritten from glfwGetTime at the
start of every call and are therefore not part of the persistent state. -/
structure RenderState where
  tempFrame : ℤ
  totalFrame : ℕ
  timebase : ℝ
  fps : ℤ
  width : ℕ
  height : ℕ

/-- Result of the once-a-second FPS block at the top of renderScene. -/
structure FpsTick where
  fps : ℤ
  timebase : ℝ
  tempFrame : ℤ
  title : Option (ℤ × ℕ × ℕ)

/-- The FPS / window-title block (main.cpp lines 165-182): when more than a
second of program time has passed since timebase, recompute fps as
tempFrame / (int)(dtime - timebase), reset timebase and tempFrame and set
the window title to (fps, totalFrame, maxFrames); otherwise leave all of it
unchanged and do not touch the title. -/
def fpsTick (tempFrame : ℤ) (timebase : ℝ) (fps : ℤ) (totalFrame : ℕ)
    (dtime : ℝ) : FpsTick :=
  if dtime - timebase > 1 then
    let f := tempFrame / truncInt (dtime - timebase)
    ⟨f, dtime, 0, some (f, totalFrame, maxFrames)⟩
  else
    ⟨fps, timebase, tempFrame, none⟩

/-- Everything renderScene hands to the GPU backend for one frame: the two
object transforms, the two lights and the five camera uniforms. -/
structure RenderContent where
  transforms : Mat4 × Mat4
  lights : LightRec × LightRec
  camera : CameraUniforms

/-- The observable output of one renderScene call. -/
structure RenderOut where
  title : Option (ℤ × ℕ × ℕ)
  content : RenderContent
  uploads : List BufferUpload

/-- renderScene (main.cpp lines 162-288).  Program time enters only through
the dtime argument (glfwGetTime); the scene content is computed from
time = (float)totalFrame / videoFPS (the source chooses
totalTimeElapsedInVideo at line 212; the alternative
totalTimeElapsedInProgram is computed but unused).  The camera is placed at
the constant position (0, 8, 8) looking at (0, 0.5, 0) with up (0, 1, 0),
FOV 45 and aspect ratio width/height (line 280).  Both counters are
incremented at the end (lines 286-287). -/
def renderScene (s : RenderState) (dtime : ℝ) : RenderOut × RenderState :=
  let tick := fpsTick s.tempFrame s.timebase s.fps s.totalFrame dtime
  let time : ℝ := (s.totalFrame : ℝ) / (videoFPS : ℝ)
  ({ title := tick.title
     content :=
       { transforms := animateTransforms time
         lights := animateLights time
         camera := calcCameraRays ⟨0, 8, 8⟩ ⟨0, 0.5, 0⟩ ⟨0, 1, 0⟩ 45
             ((s.width : ℝ) / (s.height : ℝ)) }
     uploads := renderSceneUploads },
   { s with
     tempFrame := tick.tempFrame + 1
     totalFrame := s.totalFrame + 1
     timebase := tick.timebase
     fps := tick.fps })

/-- One iteration of the capture loop as seen from the outside, for the
iteration that begins with the given totalFrame value: renderScene performs
its per-frame uploads and increments totalFrame, and the frame image is then
exported under the filename index sprintf receives — the already incremented
counter (main.cpp line 574), i.e. t + 1. -/
structure FrameRecord where
  uploads : List BufferUpload
  exported : ℕ
deriving DecidableEq, Repr

def frameRecord (t : ℕ) : FrameRecord :=
  { uploads := renderSceneUploads, exported := t + 1 }

/-- The while loop of main (main.cpp lines 557-580): while totalFrame is not
maxFrames, render one frame (incrementing totalFrame) and export one image.
The fuel argument bounds the number of iterations so the function is total;
a run whose fuel exceeds the iterations actually needed is unaffected by
it. -/
def runLoop : ℕ → ℕ → List FrameRecord
  | 0, _ => []
  | fuel + 1, t =>
    if t = maxFrames then []
    else frameRecord t :: runLoop fuel (t + 1)

/-- What createShader (main.cpp lines 326-361) does with a shader whose
compile status is isCompiled: on failure it prints the info log and deletes
the shader object, but in every case it still returns the handle to the
caller — there is no error propagation. -/
structure CreateShaderResult where
  diagnosticPrinted : Bool
  shaderDeleted : Bool
  handleReturned : Bool

def createShader (isCompiled : Bool) : CreateShaderResult :=
  { diagnosticPrinted := !isCompiled
    shaderDeleted := !isCompiled
    handleReturned := true }

/-- Compile outcomes the GL backend reports for the three shaders.  Link
status of the two programs is not part of the environment because init never
queries it (there is no glGetProgramiv call in the source). -/
structure BackendEnv where
  vertexCompiled : Bool
  fragmentCompiled : Bool
  computeCompiled : Bool

/-- meshes[0] built in init (main.cpp lines 417-428): the ground plane, two
triangles, count 2. -/
def floorMesh : Mesh :=
  { numTriangles := 2
    triangles :=
      [{ a := ⟨-5, 0, 5, 1⟩, b := ⟨-5, 0, -5, 1⟩, c := ⟨5, 0, -5, 1⟩,
         normal := ⟨0, 1, 0, 1⟩, color := ⟨1, 1, 1, 1⟩ },
       { a := ⟨-5, 0, 5, 1⟩, b := ⟨5, 0, -5, 1⟩, c := ⟨5, 0, 5, 1⟩,
         normal := ⟨0, 1, 0, 1⟩, color := ⟨1, 1, 1, 1⟩ }] }

/-- meshes[1] built in init (main.cpp lines 430-501): the cube, twelve
triangles, count 12. -/
def cubeMesh : Mesh :=
  { numTriangles := 12
    triangles :=
      [{ a := ⟨-0.5, -0.5, -0.5, 1⟩, b := ⟨0.5, -0.5, -0.5, 1⟩,
         c := ⟨-0.5, 0.5, -0.5, 1⟩, normal := ⟨0, 0, -1, 1⟩,
         color := ⟨1, 0.5, 0.1, 1⟩ },
       { a := ⟨0.5, -0.5, -0.5, 1⟩, b := ⟨0.5, 0.5, -0.5, 1⟩,
         c := ⟨-0.5, 0.5, -0.5, 1⟩, normal := ⟨0, 0, -1, 1⟩,
         color := ⟨1, 0.5, 0.1, 1⟩ },
       { a := ⟨-0.5, -0.5, 0.5, 1⟩, b := ⟨-0.5, 0.5, 0.5, 1⟩,
         c := ⟨0.5, 0.5, 0.5, 1⟩, normal := ⟨0, 0, 1, 1⟩,
         color := ⟨1, 0.5, 0.1, 1⟩ },
       { a := ⟨-0.5, -0.5, 0.5, 1⟩, b := ⟨0.5, 0.5, 0.5, 1⟩,
         c := ⟨0.5, -0.5, 0.5, 1⟩, normal := ⟨0, 0, 1, 1⟩,
         color := ⟨1, 0.5, 0.1, 1⟩ },
       { a := ⟨0.5, -0.5, 0.5, 1⟩, b := ⟨0.5, 0.5, 0.5, 1⟩,
         c := ⟨0.5, 0.5, -0.5, 1⟩, normal := ⟨1, 0, 0, 1⟩,
         color := ⟨1, 0.5, 0.1, 1⟩ },
       { a := ⟨0.5, -0.5, 0.5, 1⟩, b := ⟨0.5, 0.5, -0.5, 1⟩,
         c := ⟨0.5, -0.5, -0.5, 1⟩, normal := ⟨1, 0, 0, 1⟩,
         color := ⟨1, 0.5, 0.1, 1⟩ },
       { a := ⟨-0.5, -0.5, -0.5, 1⟩, b := ⟨-0.5, 0.5, -0.5, 1⟩,
         c := ⟨-0.5, 0.5, 0.5, 1⟩, normal := ⟨-1, 0, 0, 1⟩,
         color := ⟨1, 0.5, 0.1, 1⟩ },
       { a := ⟨-0.5, -0.5, -0.5, 1⟩, b := ⟨-0.5, 0.5, 0.5, 1⟩,
         c := ⟨-0.5, -0.5, 0.5, 1⟩, normal := ⟨-1, 0, 0, 1⟩,
         color := ⟨1, 0.5, 0.1, 1⟩ },
       { a := ⟨-0.5, 0.5, 0.5, 1⟩, b := ⟨-0.5, 0.5, -0.5, 1⟩,
         c := ⟨0.5, 0.5, -0.5, 1⟩, normal := ⟨0, 1, 0, 1⟩,
         color := ⟨1, 0.5, 0.1, 1⟩ },
       { a := ⟨-0.5, 0.5, 0.5, 1⟩, b := ⟨0.5, 0.5, -0.5, 1⟩,
         c := ⟨0.5, 0.5, 0.5, 1⟩, normal := ⟨0, 1, 0, 1⟩,
         color := ⟨1, 0.5, 0.1, 1⟩ },
       { a := ⟨-0.5, -0.5, 0.5, 1⟩, b := ⟨-0.5, -0.5, -0.5, 1⟩,
         c := ⟨0.5, -0.5, -0.5, 1⟩, normal := ⟨0, -1, 0, 1⟩,
         color := ⟨1, 0.5, 0.1, 1⟩ },
       { a := ⟨-0.5, -0.5, 0.5, 1⟩, b := ⟨0.5, -0.5, -0.5, 1⟩,
         c := ⟨0.5, -0.5, 0.5, 1⟩, normal := ⟨0, -1, 0, 1⟩,
         color := ⟨1, 0.5, 0.1, 1⟩ }] }

/-- The spec's startup-error taxonomy (spec section 7). -/
inductive StartupError where
  | configurationError
  | backendSetupError
deriving DecidableEq, Repr

/-- Session startup as init performs it (main.cpp lines 364-513), with the
mesh records as parameters so that arbitrary configured triangle counts can
be examined: init contains no validation of numTriangles against the
capacity and no failure path of any kind; it always succeeds, performing the
four allocations and marshalling the mesh records unchanged into the
fixed-size triangle buffer. -/
def sessionStartup (m0 m1 : Mesh) (lightToFragHandle : ℕ) :
    Except StartupError (List BufferUpload × (Mesh × Mesh)) :=
  Except.ok (initUploads lightToFragHandle, (m0, m1))

/-- A whole program run: startup results and the capture-loop frames. -/
structure SessionRun where
  startupUploads : List BufferUpload
  marshalledMeshes : Mesh × Mesh
  vertexResult : CreateShaderResult
  fragmentResult : CreateShaderResult
  computeResult : CreateShaderResult
  frames : List FrameRecord

/-- main (main.cpp lines 522-601): init (shader creation and buffer
allocation, unconditional), then the capture loop.  No outcome of shader
compilation or of the mesh configuration alters the control flow: the loop
is entered in every environment. -/
def mainRun (env : BackendEnv) (m0 m1 : Mesh) (lightToFragHandle fuel : ℕ) :
    SessionRun :=
  { startupUploads := initUploads lightToFragHandle
    marshalledMeshes := (m0, m1)
    vertexResult := createShader env.vertexCompiled
    fragmentResult := createShader env.fragmentCompiled
    computeResult := createShader env.computeCompiled
    frames := runLoop fuel initialTotalFrame }

/-- The state the resize path touches: the width/height globals, the
viewport, and the pixel readback buffer main allocates once before the loop
(main.cpp line 545) with 3 bytes per pixel at the startup dimensions
1280 x 720. -/
structure CaptureState where
  width : ℕ
  height : ℕ
  viewportW : ℕ
  viewportH : ℕ
  pixelBufferBytes : ℕ
deriving DecidableEq, Repr

def mainCaptureSetup : CaptureState :=
  { width := 1280, height := 720, viewportW := 1280, viewportH := 720,
    pixelBufferBytes := 3 * 1280 * 720 }

/-- window_size_callback (main.cpp lines 515-520): store the new width and
height and update the viewport.  Nothing else is touched — in particular the
pixel readback buffer is not reallocated. -/
def window_size_callback (s : CaptureState) (w h : ℕ) : CaptureState :=
  { s with width := w, height := h, viewportW := w, viewportH := h }

/-- Byte count glReadPixels needs for one BGR frame at the current
dimensions (main.cpp line 571). -/
def readbackBytes (s : CaptureState) : ℕ := 3 * s.width * s.height

end


/-! ## Helper lemmas -/

/-- glm's row-vector product of a point (w = 1) with a rotation matrix built
on the identity equals the Rodrigues rotation by the opposite angle (the
row-vector convention transposes the matrix, and the transpose of a rotation
is the rotation by the negated angle). -/
theorem vecMulMat_rot (p : Vec3) (angle : ℝ) (axis : Vec3) :
    vecMulMat (p.toVec4 1) (glmRotate mat4id angle axis) =
      (axisRotate (-angle) axis p).toVec4 1 := by
  simp only [vecMulMat, glmRotate, axisRotate, mat4id, Vec3.toVec4, Vec4.dot,
    Vec4.smul, Vec4.add, Real.cos_neg, Real.sin_neg]
  ext <;> ring

theorem xyz_toVec4 (a : Vec3) (w : ℝ) : (a.toVec4 w).xyz = a := rfl

/-- The normalization factor glm::rotate computes for the axis (0, 1, 0). -/
theorem sqrt_axisY : Real.sqrt ((0 : ℝ) * 0 + 1 * 1 + 0 * 0) = 1 := by
  rw [show ((0 : ℝ) * 0 + 1 * 1 + 0 * 0) = 1 by norm_num, Real.sqrt_one]

/-- Closed form of the capture loop: starting at totalFrame = t with
t + n = maxFrames and enough fuel, the loop performs exactly n iterations,
one frame record each, for counters t, t+1, ..., t+n-1. -/
theorem runLoop_eq (n : ℕ) : ∀ (fuel t : ℕ), t + n = maxFrames → n < fuel →
    runLoop fuel t = (List.range n).map (fun k => frameRecord (t + k)) := by
  induction n with
  | zero =>
    intro fuel t ht hf
    obtain ⟨f, rfl⟩ : ∃ f, fuel = f + 1 := ⟨fuel - 1, by omega⟩
    simp only [runLoop, List.range_zero, List.map_nil]
    rw [if_pos (by omega)]
  | succ m ih =>
    intro fuel t ht hf
    obtain ⟨f, rfl⟩ : ∃ f, fuel = f + 1 := ⟨fuel - 1, by omega⟩
    simp only [runLoop]
    rw [if_neg (by omega), ih f (t + 1) (by omega) (by omega),
      List.range_succ_eq_map]
    simp only [List.map_cons, List.map_map, Nat.add_zero, List.cons.injEq,
      true_and]
    refine List.map_congr_left ?_
    intro k _
    simp only [Function.comp_apply]
    exact congrArg frameRecord (by omega)

/-! ## Claims -/

/-- Claim C3: calcCameraRays builds the basis w = -(center - eye),
u = up x w, v = w x u, uses the horizontal half-angle fov*ratio/2 and the
vertical half-angle fov/2, rotates u about v by the signed horizontal
half-angle to get the per-half rotated right-vector, and produces each
corner ray by rotating centerRay first about v and then about the rotated
right-vector, with the eye output the input eye unchanged — i.e. it equals
the spec-side construction specCameraRays, under the spec's
preconditions. -/
theorem cameraRays_refines_spec (eye center up : Vec3) (fov ratio : ℝ)
    (_hfov0 : 0 < fov) (_hfov1 : fov < 180) (_hratio : 0 < ratio)
    (_hpar : Vec3.cross up (center.sub eye) ≠ ⟨0, 0, 0⟩) :
    calcCameraRays eye center up fov ratio =
      specCameraRays eye center up fov ratio := by
  have h1 : (-fov * ratio / 2 : ℝ) = -(fov * ratio / 2) := by ring
  have h2 : (-fov / 2 : ℝ) = -(fov / 2) := by ring
  have hr : ∀ x : ℝ, glmRadians (-x) = -glmRadians x := by
    intro x; simp only [glmRadians]; ring
  simp only [calcCameraRays, specCameraRays, h1, h2, hr, vecMulMat_rot,
    xyz_toVec4, neg_neg]

/-- Witness for C3 at the camera configuration renderScene actually uses:
eye (0,8,8), center (0,0.5,0), up (0,1,0), FOV 45, ratio 16/9. -/
theorem cameraRays_refines_spec_witness :
    (0 : ℝ) < 45 ∧ (45 : ℝ) < 180 ∧ (0 : ℝ) < 16 / 9 ∧
    Vec3.cross ⟨0, 1, 0⟩ (Vec3.sub ⟨0, 0.5, 0⟩ ⟨0, 8, 8⟩) ≠ (⟨0, 0, 0⟩ : Vec3) ∧
    calcCameraRays ⟨0, 8, 8⟩ ⟨0, 0.5, 0⟩ ⟨0, 1, 0⟩ 45 (16 / 9) =
      specCameraRays ⟨0, 8, 8⟩ ⟨0, 0.5, 0⟩ ⟨0, 1, 0⟩ 45 (16 / 9) := by
  have hpar : Vec3.cross ⟨0, 1, 0⟩ (Vec3.sub ⟨0, 0.5, 0⟩ ⟨0, 8, 8⟩) ≠
      (⟨0, 0, 0⟩ : Vec3) := by
    simp only [Vec3.cross, Vec3.sub]
    intro hc
    have hx := congrArg Vec3.x hc
    norm_num at hx
  exact ⟨by norm_num, by norm_num, by norm_num, hpar,
    cameraRays_refines_spec _ _ _ _ _ (by norm_num) (by norm_num)
      (by norm_num) hpar⟩

/-- Claim C2: for every video time t the animator produces exactly the
transforms and lights the spec describes — floor = identity uniformly scaled
by (sin t + 6)/3; cube = translation by (2 cos t, 1.5, 2 sin t) composed
with rotation by -t about Y composed with uniform scale (1 + sin t)/2,
applied scale-first to a point; light 0 white with radius 7, brightness 1 at
(2 sin t, 4, 2 cos t); light 1 red with radius 2, brightness 2 at
(4 cos t, 1, 4) — and at t = 0 the concrete values claimed. -/
theorem animate_matches_spec :
    ∀ t : ℝ,
      (animateTransforms t).1 = specUniformScale ((Real.sin t + 6) / 3) ∧
      (animateTransforms t).2 =
        (specTranslation ⟨2 * Real.cos t, 1.5, 2 * Real.sin t⟩).mul
          ((specRotationY (-t)).mul
            (specUniformScale ((1 + Real.sin t) / 2))) ∧
      (∀ p : Vec3,
        ((animateTransforms t).2).mulPoint p =
          (specTranslation ⟨2 * Real.cos t, 1.5, 2 * Real.sin t⟩).mulPoint
            ((specRotationY (-t)).mulPoint
              ((specUniformScale ((1 + Real.sin t) / 2)).mulPoint p))) ∧
      (animateLights t).1 =
        { pos := ⟨2 * Real.sin t, 4, 2 * Real.cos t, 0⟩,
          color := ⟨1, 1, 1, 0⟩, radius := 7, brightness := 1 } ∧
      (animateLights t).2 =
        { pos := ⟨4 * Real.cos t, 1, 4, 0⟩,
          color := ⟨1, 0, 0, 0⟩, radius := 2, brightness := 2 } ∧
      (animateTransforms 0).1 = specUniformScale 2 ∧
      (animateTransforms 0).2 =
        ⟨⟨0.5, 0, 0, 0⟩, ⟨0, 0.5, 0, 0⟩, ⟨0, 0, 0.5, 0⟩, ⟨2, 1.5, 0, 1⟩⟩ ∧
      (animateLights 0).1.pos = ⟨0, 4, 2, 0⟩ ∧
      (animateLights 0).2.pos = ⟨4, 1, 4, 0⟩ := by
  intro t
  refine ⟨?_, ?_, ?_, rfl, rfl, ?_, ?_, ?_, ?_⟩
  · simp only [animateTransforms, glmScale, mat4id, Vec3.ofScalar,
      Vec3.divScalar, Vec4.smul, specUniformScale]
    ext <;> ring
  · simp only [animateTransforms, glmScale, glmRotate, glmTranslate, mat4id,
      Vec3.ofScalar, Vec3.divScalar, Vec4.smul, Vec4.add, specTranslation,
      specRotationY, specUniformScale, Mat4.mul, Mat4.mulVec4, sqrt_axisY]
    ext <;> · simp only []; ring
  · intro p
    simp only [animateTransforms, glmScale, glmRotate, glmTranslate, mat4id,
      Vec3.ofScalar, Vec3.divScalar, Vec4.smul, Vec4.add, specTranslation,
      specRotationY, specUniformScale, Mat4.mulPoint, Mat4.mulVec4,
      Vec3.toVec4, Vec4.xyz, sqrt_axisY]
    ext <;> · simp only []; ring
  · simp only [animateTransforms, glmScale, mat4id, Vec3.ofScalar,
      Vec3.divScalar, Vec4.smul, specUniformScale, Real.sin_zero]
    ext <;> norm_num
  · simp only [animateTransforms, glmScale, glmRotate, glmTranslate, mat4id,
      Vec3.ofScalar, Vec3.divScalar, Vec4.smul, Vec4.add, sqrt_axisY,
      Real.sin_zero, Real.cos_zero, neg_zero]
    ext <;> norm_num
  · simp only [animateLights, Real.sin_zero, Real.cos_zero]
    ext <;> norm_num
  · simp only [animateLights, Real.sin_zero, Real.cos_zero]
    ext <;> norm_num

/-- Claim C1: with targetFPS 60 and 10 seconds, maxFrames = 600; the loop
starts at totalFrame = 0, every renderScene call increments totalFrame by
exactly one, each iteration produces exactly one frame record, the loop
stops exactly when totalFrame reaches maxFrames, and the run yields exactly
600 frames, one per counter value, with no early exit, no skip and no
repetition. -/
theorem frame_capture_exact :
    initialTotalFrame = 0 ∧
    videoFPS = 60 ∧
    videoSeconds = 10 ∧
    maxFrames = videoFPS * videoSeconds ∧
    (∀ (s : RenderState) (dtime : ℝ),
      ((renderScene s dtime).2).totalFrame = s.totalFrame + 1) ∧
    (∀ fuel t, runLoop (fuel + 1) t = [] ↔ t = maxFrames) ∧
    (∀ fuel t, t ≠ maxFrames →
      runLoop (fuel + 1) t = frameRecord t :: runLoop fuel (t + 1)) ∧
    (∀ fuel, maxFrames < fuel →
      runLoop fuel initialTotalFrame =
        (List.range maxFrames).map (fun k => frameRecord k) ∧
      (runLoop fuel initialTotalFrame).length = maxFrames ∧
      ((runLoop fuel initialTotalFrame).map FrameRecord.exported).Nodup) := by
  refine ⟨rfl, rfl, rfl, rfl, fun s dtime => rfl, ?_, ?_, ?_⟩
  · intro fuel t
    constructor
    · intro h
      by_contra hne
      rw [runLoop, if_neg hne] at h
      exact List.cons_ne_nil _ _ h
    · intro h
      simp only [runLoop, if_pos h]
  · intro fuel t h
    simp only [runLoop, if_neg h]
  · intro fuel hf
    have h := runLoop_eq maxFrames fuel initialTotalFrame
      (by simp [initialTotalFrame]) hf
    have hz : (fun k => frameRecord (initialTotalFrame + k)) =
        fun k => frameRecord k := by
      funext k
      simp [initialTotalFrame]
    rw [h, hz]
    refine ⟨rfl, by simp, ?_⟩
    rw [List.map_map]
    have hcomp : (FrameRecord.exported ∘ fun k => frameRecord k) =
        fun k => k + 1 := by
      funext k
      rfl
    rw [hcomp]
    exact List.Nodup.map (fun a b => by omega) (List.nodup_range maxFrames)

/-- Witness for C1 at concrete fuel values. -/
theorem frame_capture_exact_witness :
    (runLoop 601 initialTotalFrame = [] ↔ 0 = maxFrames) ∧
    (5 : ℕ) ≠ maxFrames ∧
    runLoop 8 5 = frameRecord 5 :: runLoop 7 6 ∧
    maxFrames < 601 ∧
    runLoop 601 initialTotalFrame =
      (List.range maxFrames).map (fun k => frameRecord k) ∧
    (runLoop 601 initialTotalFrame).length = maxFrames := by
  have h := frame_capture_exact
  refine ⟨h.2.2.2.2.2.1 600 0, by decide, h.2.2.2.2.2.2.1 7 5 (by decide),
    by decide, (h.2.2.2.2.2.2.2 601 (by decide)).1,
    (h.2.2.2.2.2.2.2 601 (by decide)).2.1⟩

/-- Claim C4: the rendered content (transforms, lights, camera) and the
per-frame uploads of renderScene depend only on totalFrame and the window
dimensions, never on program time or the FPS-diagnostic state: two calls
with equal totalFrame, width and height agree on them for arbitrary wall
clocks and FPS state. -/
theorem content_independent_of_program_time :
    ∀ (s1 s2 : RenderState) (d1 d2 : ℝ),
      s1.totalFrame = s2.totalFrame → s1.width = s2.width →
      s1.height = s2.height →
      ((renderScene s1 d1).1).content = ((renderScene s2 d2).1).content ∧
      ((renderScene s1 d1).1).uploads = ((renderScene s2 d2).1).uploads := by
  intro s1 s2 d1 d2 ht hw hh
  constructor
  · simp only [renderScene]
    rw [ht, hw, hh]
  · rfl

/-- Witness for C4: two states equal in totalFrame, width, height but with
different FPS-diagnostic state, evaluated at different wall clocks. -/
theorem content_independent_witness :
    ((renderScene ⟨0, 7, 0, 0, 1280, 720⟩ 0).1).content =
      ((renderScene ⟨33, 7, 2.5, 61, 1280, 720⟩ 123).1).content ∧
    ((renderScene ⟨0, 7, 0, 0, 1280, 720⟩ 0).1).uploads =
      ((renderScene ⟨33, 7, 2.5, 61, 1280, 720⟩ 123).1).uploads :=
  content_independent_of_program_time _ _ _ _ rfl rfl rfl

/-- Claim C5 counterexample: the exported filename indices are not the
zero-based 0..599 the claim states — index 0 is never exported while index
600 is (sprintf receives the counter after renderScene incremented it). -/
theorem export_index_zero_missing :
    0 ∉ (runLoop 601 initialTotalFrame).map FrameRecord.exported ∧
    600 ∈ (runLoop 601 initialTotalFrame).map FrameRecord.exported := by
  rw [runLoop_eq maxFrames 601 initialTotalFrame (by simp [initialTotalFrame])
    (by decide)]
  have hm : maxFrames = 600 := rfl
  constructor
  · simp only [List.map_map, List.mem_map, Function.comp_apply, frameRecord,
      List.mem_range, hm, not_exists]
    intro k
    omega
  · simp only [List.map_map, List.mem_map, Function.comp_apply, frameRecord,
      List.mem_range, hm]
    exact ⟨599, by omega, rfl⟩

/-- Claim C5 amended: the filename index of the iteration that begins with
counter k is k + 1 (the counter after the increment inside renderScene), so
with targetFPS 60 and 10 seconds the exported indices are exactly 1..600 in
order — strictly monotonic, no gaps, no duplicates, but one-based. -/
theorem export_indices_one_based (fuel : ℕ) (hf : maxFrames < fuel) :
    (runLoop fuel initialTotalFrame).map FrameRecord.exported =
      (List.range maxFrames).map (fun k => k + 1) := by
  rw [runLoop_eq maxFrames fuel initialTotalFrame (by simp [initialTotalFrame])
    hf]
  rw [List.map_map]
  refine List.map_congr_left ?_
  intro k _
  simp [frameRecord, initialTotalFrame]

/-- Witness for the amended C5 at fuel 601. -/
theorem export_indices_one_based_witness :
    (runLoop 601 initialTotalFrame).map FrameRecord.exported =
      (List.range maxFrames).map (fun k => k + 1) :=
  export_indices_one_based 601 (by decide)

/-- Claim C10: every renderScene call feeds calcCameraRays the constants
eye (0,8,8), center (0,0.5,0), up (0,1,0), FOV 45 and aspect width/height,
so any two frames with equal window dimensions receive identical camera
uniforms. -/
theorem camera_inputs_constant :
    (∀ (s : RenderState) (dtime : ℝ),
      ((renderScene s dtime).1).content.camera =
        calcCameraRays ⟨0, 8, 8⟩ ⟨0, 0.5, 0⟩ ⟨0, 1, 0⟩ 45
          ((s.width : ℝ) / (s.height : ℝ))) ∧
    (∀ (s1 s2 : RenderState) (d1 d2 : ℝ),
      s1.width = s2.width → s1.height = s2.height →
      ((renderScene s1 d1).1).content.camera =
        ((renderScene s2 d2).1).content.camera) := by
  constructor
  · intro s dtime
    rfl
  · intro s1 s2 d1 d2 hw hh
    show calcCameraRays _ _ _ _ ((s1.width : ℝ) / (s1.height : ℝ)) =
      calcCameraRays _ _ _ _ ((s2.width : ℝ) / (s2.height : ℝ))
    rw [hw, hh]

/-- Witness for C10: frames 0 and 9 at the same window size, different wall
clocks and FPS state, get the same camera uniforms. -/
theorem camera_inputs_constant_witness :
    ((renderScene ⟨0, 0, 0, 0, 1280, 720⟩ 0).1).content.camera =
      ((renderScene ⟨4, 9, 1.5, 30, 1280, 720⟩ 42).1).content.camera :=
  camera_inputs_constant.2 _ _ _ _ rfl rfl

/-- Claim C6 counterexample: configure mesh 0 with 13 triangles (count
greater than the capacity 12) — session startup still succeeds: init has no
validation and marshals the oversized count unchanged, and the capture loop
then runs its full 600 frames. -/
theorem mesh_overflow_not_rejected :
    ({ cubeMesh with numTriangles := 13 } : Mesh).numTriangles >
      (meshTriangleCapacity : ℤ) ∧
    sessionStartup { cubeMesh with numTriangles := 13 } cubeMesh 4 =
      Except.ok (initUploads 4,
        ({ cubeMesh with numTriangles := 13 }, cubeMesh)) ∧
    (mainRun ⟨true, true, true⟩ { cubeMesh with numTriangles := 13 } cubeMesh
        4 601).frames.length = maxFrames := by
  refine ⟨?_, rfl, ?_⟩
  · show (13 : ℤ) > (meshTriangleCapacity : ℤ)
    decide
  · show (runLoop 601 initialTotalFrame).length = maxFrames
    rw [runLoop_eq maxFrames 601 initialTotalFrame
      (by simp [initialTotalFrame]) (by decide)]
    simp

/-- Claim C6 amended: session startup never fails on triangle counts: init
performs no validation of numTriangles against the 12-triangle capacity and
has no failure path; every configuration — including one whose count exceeds
the capacity — is accepted and marshalled unchanged (no truncation of the
count), and the session proceeds to render frames. -/
theorem mesh_overflow_amended :
    ∀ (m0 m1 : Mesh) (lightHandle : ℕ) (env : BackendEnv),
      sessionStartup m0 m1 lightHandle =
        Except.ok (initUploads lightHandle, (m0, m1)) ∧
      (mainRun env m0 m1 lightHandle 601).marshalledMeshes = (m0, m1) ∧
      (mainRun env m0 m1 lightHandle 601).frames.length = maxFrames ∧
      meshTriangleCapacity = 12 := by
  intro m0 m1 lightHandle env
  refine ⟨rfl, rfl, ?_, rfl⟩
  show (runLoop 601 initialTotalFrame).length = maxFrames
  rw [runLoop_eq maxFrames 601 initialTotalFrame
    (by simp [initialTotalFrame]) (by decide)]
  simp

/-- Claim C7 counterexample: with all three shaders failing to compile, the
diagnostics are printed but the session still enters the capture loop and
renders all 600 frames — the failure is not fatal. -/
theorem shader_failure_not_fatal :
    (mainRun ⟨false, false, false⟩ floorMesh cubeMesh 4 601).vertexResult.diagnosticPrinted = true ∧
    (mainRun ⟨false, false, false⟩ floorMesh cubeMesh 4 601).fragmentResult.diagnosticPrinted = true ∧
    (mainRun ⟨false, false, false⟩ floorMesh cubeMesh 4 601).computeResult.diagnosticPrinted = true ∧
    (mainRun ⟨false, false, false⟩ floorMesh cubeMesh 4 601).frames.length = maxFrames := by
  refine ⟨rfl, rfl, rfl, ?_⟩
  show (runLoop 601 initialTotalFrame).length = maxFrames
  rw [runLoop_eq maxFrames 601 initialTotalFrame
    (by simp [initialTotalFrame]) (by decide)]
  simp

/-- Claim C7 amended: on a shader compile failure createShader prints the
info-log diagnostic and deletes the shader object, but still returns the
handle; init never checks link status, and main proceeds into the capture
loop and renders all maxFrames frames in every backend environment — the
failure is surfaced but not fatal. -/
theorem shader_failure_amended :
    ∀ (env : BackendEnv) (m0 m1 : Mesh) (lightHandle fuel : ℕ),
      maxFrames < fuel →
      (createShader false).diagnosticPrinted = true ∧
      (createShader false).shaderDeleted = true ∧
      (createShader false).handleReturned = true ∧
      (mainRun env m0 m1 lightHandle fuel).vertexResult =
        createShader env.vertexCompiled ∧
      (mainRun env m0 m1 lightHandle fuel).frames.length = maxFrames := by
  intro env m0 m1 lightHandle fuel hf
  refine ⟨rfl, rfl, rfl, rfl, ?_⟩
  show (runLoop fuel initialTotalFrame).length = maxFrames
  rw [runLoop_eq maxFrames fuel initialTotalFrame
    (by simp [initialTotalFrame]) hf]
  simp

/-- Witness for the amended C7: all shaders fail, fuel 601. -/
theorem shader_failure_amended_witness :
    maxFrames < 601 ∧
    (createShader false).diagnosticPrinted = true ∧
    (mainRun ⟨false, true, true⟩ floorMesh cubeMesh 4 601).frames.length =
      maxFrames :=
  ⟨by decide,
   (shader_failure_amended ⟨false, true, true⟩ floorMesh cubeMesh 4 601
     (by decide)).1,
   (shader_failure_amended ⟨false, true, true⟩ floorMesh cubeMesh 4 601
     (by decide)).2.2.2.2⟩

/-- Claim C8 counterexample: after the windowing collaborator reports a
resize to 1920 x 1080, the viewport is updated but the pixel-readback buffer
still has its startup size 3 x 1280 x 720, which differs from the
3 x newWidth x newHeight the next readback needs. -/
theorem resize_keeps_stale_buffer :
    (window_size_callback mainCaptureSetup 1920 1080).viewportW = 1920 ∧
    (window_size_callback mainCaptureSetup 1920 1080).viewportH = 1080 ∧
    (window_size_callback mainCaptureSetup 1920 1080).pixelBufferBytes ≠
      3 * 1920 * 1080 ∧
    (window_size_callback mainCaptureSetup 1920 1080).pixelBufferBytes ≠
      readbackBytes (window_size_callback mainCaptureSetup 1920 1080) := by
  refine ⟨rfl, rfl, by decide, by decide⟩

/-- Claim C8 amended: the resize callback updates the stored width/height
and the viewport, but never the pixel-readback buffer: that buffer keeps its
startup size 3 x 1280 x 720 for the whole session, so after any resize to
dimensions with a different pixel count the next readback needs a byte count
that differs from the buffer's size. -/
theorem resize_amended :
    ∀ (s : CaptureState) (w h : ℕ),
      (window_size_callback s w h).width = w ∧
      (window_size_callback s w h).height = h ∧
      (window_size_callback s w h).viewportW = w ∧
      (window_size_callback s w h).viewportH = h ∧
      (window_size_callback s w h).pixelBufferBytes = s.pixelBufferBytes ∧
      mainCaptureSetup.pixelBufferBytes = 3 * 1280 * 720 ∧
      (w * h ≠ 1280 * 720 →
        (window_size_callback mainCaptureSetup w h).pixelBufferBytes ≠
          readbackBytes (window_size_callback mainCaptureSetup w h)) := by
  intro s w h
  refine ⟨rfl, rfl, rfl, rfl, rfl, rfl, ?_⟩
  intro hwh heq
  apply hwh
  have h3 : 3 * (1280 * 720) = 3 * (w * h) := by
    simpa [readbackBytes, window_size_callback, mainCaptureSetup,
      mul_assoc] using heq
  omega

/-- Witness for the amended C8 at the concrete resize 1920 x 1080. -/
theorem resize_amended_witness :
    1920 * 1080 ≠ 1280 * 720 ∧
    (window_size_callback mainCaptureSetup 1920 1080).pixelBufferBytes ≠
      readbackBytes (window_size_callback mainCaptureSetup 1920 1080) :=
  ⟨by decide, (resize_amended mainCaptureSetup 1920 1080).2.2.2.2.2.2
    (by decide)⟩

/-- Claim C9 (code bug in the light-buffer allocation): per frame,
renderScene re-uploads the transform buffer with size sizeof(mat4) * 2 and
the light buffer with size sizeof(light) * 2, and never writes the triangle
buffer; the triangle buffer (2 meshes of capacity 12 each) receives exactly
one upload, at startup.  But init's initial allocation of the light buffer
passes the buffer handle lightToFrag as the size argument instead of
lightToFragSize, so at startup the light buffer is sized to the handle
value, not to 2 light records. -/
theorem light_alloc_uses_handle_as_size :
    ∀ (lightToFragHandle : ℕ) (s : RenderState) (dtime : ℝ),
      ((initUploads lightToFragHandle).filter
          (fun u => u.buf == GLBuffer.triangleBuffer)) =
        [⟨GLBuffer.triangleBuffer, sizeofMesh * 2⟩] ∧
      (renderSceneUploads.filter
          (fun u => u.buf == GLBuffer.triangleBuffer)) = [] ∧
      renderSceneUploads =
        [⟨GLBuffer.matrixBuffer, sizeofMat4 * 2⟩,
         ⟨GLBuffer.lightToFrag, sizeofLight * 2⟩] ∧
      ((renderScene s dtime).1).uploads = renderSceneUploads ∧
      ((initUploads lightToFragHandle).filter
          (fun u => u.buf == GLBuffer.lightToFrag)) =
        [⟨GLBuffer.lightToFrag, lightToFragHandle⟩] ∧
      meshTriangleCapacity = 12 := by
  intro lightToFragHandle s dtime
  exact ⟨rfl, rfl, rfl, rfl, rfl, rfl⟩
